import Mathlib

/-!
Verification development for the disaster-tracker reconciliation and
correlation core.

The Python sources are shallowly embedded: the effect algebra
(`Something`/`Nothing`, `Ok`/`Err` from `app/pipeline.py`) becomes two sum
types `Opt` and `Res`; the Mongo-backed `EventStorage` (`app/db.py`) becomes
an association list keyed by the event id, with `insert`, `update_by_id`
(an upsert that `$set`s every field, which is how `CalendarTracker` always
calls it) and `get_by_id`; timestamps are naive-UTC microsecond counts;
coordinates are real numbers.  Transport-level storage failures are
modelled on their success path (the `case err: return err` arms of the
Python `match` statements are kept in the definitions but never fire);
client-side exceptions that the code's own argument handling provokes —
the `TypeError` pymongo raises when `insert` is handed the pydantic model
instead of its dict dump, and the `AttributeError` aioredis raises when
`hset` is handed an un-unwrapped `Ok(dict)` as its mapping — escape the
`as_async_result` guards and are modelled as `PyComp.raised` outcomes.
-/

/-- Model of the `Option` tagged union of `app/pipeline.py`
(`Something`/`Nothing`). -/
inductive Opt (α : Type u) where
  | Something (value : α)
  | Nothing
deriving DecidableEq

/-- `Opt.map`, used to observe a single field of a looked-up record. -/
def Opt.map (f : α → β) : Opt α → Opt β
  | .Something v => .Something (f v)
  | .Nothing => .Nothing

/-- Model of the `Result` tagged union of `app/pipeline.py` (`Ok`/`Err`). -/
inductive Res (α : Type u) (ε : Type v) where
  | Ok (value : α)
  | Err (error : ε)
deriving DecidableEq

/-- The Python exception classes that appear at the algebra boundaries of the
code under study, plus the base class `Exception` itself.
`googleapiclient.errors.HttpError`, `httpx.HTTPError` and
`googlemaps.exceptions.HTTPError` are three distinct, unrelated classes and
get three distinct kinds. -/
inductive ExcKind where
  | exceptionBase
  | keyError
  | valueError
  | typeError
  | attributeError
  | validationError
  | unwrapError
  | pyMongoError
  | redisError
  | googleHttpError
  | httpxHTTPError
  | gmapsHTTPError
deriving DecidableEq

/-- A raised Python exception: its class and its message. -/
structure PyExc where
  kind : ExcKind
  msg : String
deriving DecidableEq

/-- The observable behaviour of calling a fallible Python function: it
either returns a value or raises an exception. -/
inductive PyComp (α : Type u) where
  | val (v : α)
  | raised (e : PyExc)
deriving DecidableEq

/-- Model of `app/calendar_events.py:CalendarEvent`.  `start`/`end` are
naive-UTC timestamps in microseconds; `tracked` defaults to `false` exactly
as the pydantic field does. -/
structure CalendarEvent where
  id : String
  summary : String
  location : String
  coordinates : ℝ × ℝ
  creator : String
  start : Nat
  «end» : Nat
  link : String
  tracked : Bool := false

/-- The Mongo events collection: documents keyed by `_id`. -/
abbrev EventDB : Type := List (String × CalendarEvent)

/-- `EventStorage.get_by_id` (`app/db.py`): `find_one({"_id": _id})`,
`Something` on a hit and `Nothing` otherwise.  `CalendarTracker.get_event`
re-parses the document through `CalendarEvent.from_`, which on a document
that was written by this same tracker is the identity, so the parse step
is absorbed here. -/
def EventStorage.get_by_id (db : EventDB) (id : String) : Opt CalendarEvent :=
  match db with
  | [] => .Nothing
  | (k, v) :: rest => if k == id then .Something v else EventStorage.get_by_id rest id

/-- The shape of the argument a caller hands to `EventStorage.insert`:
either the dict dump of an event (`event.to_(dict).ok()`) or the pydantic
model object itself. -/
inductive InsertArg where
  | dictOf (e : CalendarEvent)
  | modelOf (e : CalendarEvent)

/-- The `TypeError` pymongo's document validation raises when a document is
not a mapping. -/
def typeErrorDoc : PyExc :=
  ⟨ExcKind.typeError, "document must be an instance of dict"⟩

/-- `EventStorage.insert` (`app/db.py`, lines 126-134), decorated
`as_async_result(PyMongoError, AttributeError)`.  A real dict matches
`case dict()` and `insert_one` appends it.  A pydantic model does not match
`case dict()`, but pydantic v2's `BaseModel.__iter__` makes it match the
`Iterable` guard, so `insert_many(model)` runs; pymongo's document
validation then raises `TypeError` on the model's `(name, value)` field
tuples, client-side, before anything is written — and `TypeError` is
neither `PyMongoError` nor `AttributeError`, so the decorator lets it
propagate.  (The source's `case _: raise TypeError` arm is unreachable for
both argument shapes.) -/
def EventStorage.insert (db : EventDB) (arg : InsertArg) :
    PyComp (Res Bool PyExc) × EventDB :=
  match arg with
  | .dictOf e => (.val (.Ok true), db ++ [(e.id, e)])
  | .modelOf _ => (.raised typeErrorDoc, db)

/-- `EventStorage.update_by_id` (`app/db.py`): `update_one({"_id": _id},
{"$set": fields}, upsert=True)`.  The tracker always passes the full dump of
the event, so the `$set` replaces every field of the first matching
document; when no document matches, the upsert inserts one. -/
def EventStorage.update_by_id (db : EventDB) (id : String) (v : CalendarEvent) : EventDB :=
  match db with
  | [] => [(id, v)]
  | (k, w) :: rest =>
      if k == id then (k, v) :: rest else (k, w) :: EventStorage.update_by_id rest id v

/-- `CalendarTracker.create_event` (`app/calendar_events.py`, lines 60-61):
`await self._storage.insert(event)` — the pydantic model itself, not its
dict dump (contrast `create_or_update_event`, which unwraps
`event.to_(dict).ok()`), so the insert raises an uncaught `TypeError` and
writes nothing. -/
def CalendarTracker.create_event (db : EventDB) (e : CalendarEvent) :
    PyComp (Res Bool PyExc) × EventDB :=
  EventStorage.insert db (.modelOf e)

/-- `CalendarTracker.create_or_update_event` (`app/calendar_events.py`):
upsert by id of the full field dump; the returned `matched_count` is `1`
when a document with that id already existed and `0` otherwise. -/
def CalendarTracker.create_or_update_event (db : EventDB) (e : CalendarEvent) :
    Res Nat PyExc × EventDB :=
  ((match EventStorage.get_by_id db e.id with
    | .Something _ => .Ok 1
    | .Nothing => .Ok 0),
   EventStorage.update_by_id db e.id e)

/-- `CalendarTracker.sync_event` (`app/calendar_events.py`, lines 72-85):
look up the incoming id; if present, persist the incoming event with
`tracked` copied from the stored record and return the merged record; if
absent, call `create_event` — whose `match await ...` re-raises anything
the awaited call raises, there being no `try` around it, so the insert's
uncaught `TypeError` propagates out of `sync_event` with nothing
persisted. -/
def CalendarTracker.sync_event (db : EventDB) (updated : CalendarEvent) :
    PyComp (Res CalendarEvent PyExc) × EventDB :=
  match EventStorage.get_by_id db updated.id with
  | .Something event =>
      let ready := { updated with tracked := event.tracked }
      let step := CalendarTracker.create_or_update_event db ready
      ((match step.1 with
        | .Ok _ => .val (.Ok ready)
        | .Err e => .val (.Err e)),
       step.2)
  | .Nothing =>
      let step := CalendarTracker.create_event db updated
      ((match step.1 with
        | .val (.Ok _) => .val (.Ok updated)
        | .val (.Err e) => .val (.Err e)
        | .raised e => .raised e),
       step.2)

/-- The `tracked` bit of a looked-up record, when one was found. -/
def trackedOf (r : Opt CalendarEvent) : Opt Bool :=
  Opt.map (fun e => e.tracked) r

theorem get_by_id_update_by_id (db : EventDB) (id : String) (v e : CalendarEvent)
    (h : EventStorage.get_by_id db id = .Something e) :
    EventStorage.get_by_id (EventStorage.update_by_id db id v) id = .Something v := by
  induction db with
  | nil => simp [EventStorage.get_by_id] at h
  | cons hd tl ih =>
      obtain ⟨k, w⟩ := hd
      by_cases hk : k == id
      · simp [EventStorage.get_by_id, EventStorage.update_by_id, hk]
      · simp [EventStorage.get_by_id, hk] at h
        simp [EventStorage.get_by_id, EventStorage.update_by_id, hk, ih h]

theorem sync_event_present_case (db : EventDB) (u e : CalendarEvent)
    (h : EventStorage.get_by_id db u.id = .Something e) :
    (CalendarTracker.sync_event db u).1 = .val (.Ok { u with tracked := e.tracked }) ∧
    EventStorage.get_by_id (CalendarTracker.sync_event db u).2 u.id =
      .Something { u with tracked := e.tracked } := by
  constructor
  · simp [CalendarTracker.sync_event, h, CalendarTracker.create_or_update_event]
  · have : EventStorage.get_by_id
        (EventStorage.update_by_id db u.id { u with tracked := e.tracked }) u.id =
        .Something { u with tracked := e.tracked } :=
      get_by_id_update_by_id db u.id _ e h
    simpa [CalendarTracker.sync_event, h, CalendarTracker.create_or_update_event]

theorem sync_event_absent_case (db : EventDB) (u : CalendarEvent)
    (h : EventStorage.get_by_id db u.id = .Nothing) :
    (CalendarTracker.sync_event db u).1 = .raised typeErrorDoc ∧
    (CalendarTracker.sync_event db u).2 = db := by
  constructor <;>
    simp [CalendarTracker.sync_event, h, CalendarTracker.create_event,
      EventStorage.insert]

/-- C1: for every incoming event whose id is already stored, `sync_event`
returns — and persists under that id — the record equal to the incoming
event in every field except `tracked`, which is copied from the existing
record. -/
theorem sync_event_preserves_tracked (db : EventDB) (u e : CalendarEvent)
    (h : EventStorage.get_by_id db u.id = .Something e) :
    (CalendarTracker.sync_event db u).1 = .val (.Ok { u with tracked := e.tracked }) ∧
    EventStorage.get_by_id (CalendarTracker.sync_event db u).2 u.id =
      .Something { u with tracked := e.tracked } :=
  sync_event_present_case db u e h

/-- The stored record of the C1 scenario: already tracked, old summary. -/
def eW : CalendarEvent :=
  { id := "e1", summary := "old summary", location := "Kyiv",
    coordinates := (0, 0), creator := "owner@example.com",
    start := 10, «end» := 20, link := "https://cal/e1", tracked := true }

/-- The storage state of the C1 scenario. -/
def dbW : EventDB := [("e1", eW)]

/-- The incoming remote event of the C1 scenario: same id, different
summary, `tracked` at its remote default `false`. -/
def uW : CalendarEvent :=
  { id := "e1", summary := "new summary", location := "Kyiv",
    coordinates := (0, 0), creator := "owner@example.com",
    start := 10, «end» := 20, link := "https://cal/e1", tracked := false }

/-- C1 witness: with an existing `tracked=true` record and an incoming event
with a different summary, the persisted and returned record keeps
`tracked=true` and takes the incoming summary. -/
theorem sync_event_preserves_tracked_witness :
    EventStorage.get_by_id dbW uW.id = .Something eW ∧
    ((CalendarTracker.sync_event dbW uW).1 = .val (.Ok { uW with tracked := true }) ∧
     EventStorage.get_by_id (CalendarTracker.sync_event dbW uW).2 uW.id =
       .Something { uW with tracked := true }) :=
  ⟨rfl, sync_event_preserves_tracked dbW uW eW rfl⟩

/-- The incoming event of the C2 failing input, `tracked` left at its
default `false` and its id absent from storage. -/
def uC2w : CalendarEvent :=
  { id := "n2", summary := "hike", location := "Delatyn",
    coordinates := (0, 0), creator := "owner@example.com",
    start := 50, «end» := 60, link := "https://cal/n2" }

/-- C2 at the failing input: on an absent id `sync_event` neither persists
the incoming event with `tracked=false` nor returns it — `create_event`
hands the pydantic model to `EventStorage.insert`, whose `Iterable` arm
calls `insert_many(model)`, and pymongo's `TypeError` escapes the
`as_async_result(PyMongoError, AttributeError)` guard: `sync_event` raises
and the storage is left untouched.  The spec's create-on-absent step and
`insert`'s own `dict | Iterable[dict]` annotation (honoured by the sibling
`create_or_update_event`, which passes `event.to_(dict).ok()`) show the
dict dump was intended. -/
theorem sync_event_create_on_absent_bug :
    EventStorage.get_by_id ([] : EventDB) uC2w.id = .Nothing ∧
    (CalendarTracker.sync_event [] uC2w).1 = .raised typeErrorDoc ∧
    (CalendarTracker.sync_event [] uC2w).2 = ([] : EventDB) :=
  ⟨rfl, rfl, rfl⟩

/-- C3: reconciling the same incoming event twice in a row (no intervening
write) leaves the persisted record for that id after the second run
identical to what it was after the first run, and in particular the
persisted `tracked` bit is unchanged.  On a present id the second merge
recomputes the same record and the upsert rewrites it in place; on an
absent id both runs raise inside `create_event` before writing anything,
so the persisted state (no record) is the same after both. -/
theorem sync_event_idempotent (db : EventDB) (u : CalendarEvent) :
    EventStorage.get_by_id
        (CalendarTracker.sync_event (CalendarTracker.sync_event db u).2 u).2 u.id =
      EventStorage.get_by_id (CalendarTracker.sync_event db u).2 u.id ∧
    trackedOf (EventStorage.get_by_id
        (CalendarTracker.sync_event (CalendarTracker.sync_event db u).2 u).2 u.id) =
      trackedOf (EventStorage.get_by_id (CalendarTracker.sync_event db u).2 u.id) := by
  have main : EventStorage.get_by_id
      (CalendarTracker.sync_event (CalendarTracker.sync_event db u).2 u).2 u.id =
      EventStorage.get_by_id (CalendarTracker.sync_event db u).2 u.id := by
    cases h : EventStorage.get_by_id db u.id with
    | Something e =>
        have h1 : EventStorage.get_by_id (CalendarTracker.sync_event db u).2 u.id =
            .Something { u with tracked := e.tracked } :=
          (sync_event_present_case db u e h).2
        have h2 := (sync_event_present_case
          (CalendarTracker.sync_event db u).2 u { u with tracked := e.tracked } h1).2
        rw [h1]
        simpa using h2
    | Nothing =>
        have h1 : (CalendarTracker.sync_event db u).2 = db :=
          (sync_event_absent_case db u h).2
        simp only [h1]
  exact ⟨main, by rw [main]⟩

/-- Python's subclass test between the modelled exception classes: every
class here derives from `Exception`, and pydantic's `ValidationError` also
derives from `ValueError` (pydantic v2's `ValidationError` is
`pydantic_core.ValidationError`, a `ValueError` subclass; the same holds in
v1).  No other modelled class derives from another — in particular the
three HTTP error classes are mutually unrelated. -/
def ExcKind.isSubclassOf (k d : ExcKind) : Bool :=
  k == d || d == ExcKind.exceptionBase ||
    (k == ExcKind.validationError && d == ExcKind.valueError)

/-- Whether an `except (A, B, ...)` clause with the given class tuple
catches a raised exception (`isinstance` against any member). -/
def clauseCatches (clause : List ExcKind) (e : PyExc) : Bool :=
  clause.any (fun d => e.kind.isSubclassOf d)

/-- `as_result` (`app/pipeline.py`, lines 221-235) applied to a computation
with the given behaviour.  The wrapper's first clause is
`except exceptions or Exception`: with a non-empty declared tuple it catches
exactly those classes, but with an empty tuple the guard evaluates to the
bare `Exception` class and catches everything.  A second clause
`except UnwrapError` follows unconditionally. -/
def as_result_run (declared : List ExcKind) (r : PyComp α) : PyComp (Res α PyExc) :=
  match r with
  | .val v => .val (.Ok v)
  | .raised e =>
      let clause1 := if declared.isEmpty then [ExcKind.exceptionBase] else declared
      if clauseCatches clause1 e then .val (.Err e)
      else if clauseCatches [ExcKind.unwrapError] e then .val (.Err e)
      else .raised e

/-- `as_async_result` (`app/pipeline.py`, lines 238-250): the same
`except exceptions or Exception` guard, with no extra `UnwrapError`
clause. -/
def as_async_result_run (declared : List ExcKind) (r : PyComp α) : PyComp (Res α PyExc) :=
  match r with
  | .val v => .val (.Ok v)
  | .raised e =>
      let clause1 := if declared.isEmpty then [ExcKind.exceptionBase] else declared
      if clauseCatches clause1 e then .val (.Err e)
      else .raised e

/-- C6 counterexample, three ways the boundary is not exact: with declared
set `{KeyError}`, a raised `UnwrapError` — a kind outside the declared
set — is converted to a `Failure` instead of propagating; with an empty
declared set every exception is caught, the set silently widening to
catch-all; and with declared set `{ValueError}` a raised pydantic
`ValidationError` — again a kind not in the set — is caught through
Python's subclass test. -/
theorem as_result_boundary_counterexample :
    as_result_run [ExcKind.keyError]
        (PyComp.raised ⟨ExcKind.unwrapError, "unwrap"⟩ : PyComp Nat) =
      .val (.Err ⟨ExcKind.unwrapError, "unwrap"⟩) ∧
    clauseCatches [ExcKind.keyError] ⟨ExcKind.unwrapError, "unwrap"⟩ = false ∧
    as_result_run ([] : List ExcKind)
        (PyComp.raised ⟨ExcKind.keyError, "missing"⟩ : PyComp Nat) =
      .val (.Err ⟨ExcKind.keyError, "missing"⟩) ∧
    as_result_run [ExcKind.valueError]
        (PyComp.raised ⟨ExcKind.validationError, "invalid"⟩ : PyComp Nat) =
      .val (.Err ⟨ExcKind.validationError, "invalid"⟩) :=
  ⟨rfl, rfl, rfl, rfl⟩

/-- C6 (amended): `as_result` returns `Ok` on a normal return; a raised
exception is converted to a `Failure` exactly when the declared set is
empty (the `exceptions or Exception` guard then catches everything), or
the exception is an instance of a declared class under Python's subclass
test (so a declared `ValueError` also catches pydantic's
`ValidationError`), or the exception is an `UnwrapError` (unconditional
second handler); otherwise it propagates. -/
theorem as_result_boundary_amended (declared : List ExcKind) (e : PyExc) (v : Nat) :
    as_result_run declared (PyComp.val v) = .val (.Ok v) ∧
    as_result_run declared (PyComp.raised e : PyComp Nat) =
      (if declared.isEmpty || clauseCatches declared e || e.kind == ExcKind.unwrapError
       then .val (.Err e) else .raised e) := by
  refine ⟨rfl, ?_⟩
  by_cases hemp : declared.isEmpty <;>
  by_cases hc : clauseCatches declared e <;>
  by_cases hu : e.kind = ExcKind.unwrapError <;>
  simp_all [as_result_run, clauseCatches, ExcKind.isSubclassOf, List.any_eq_true,
    beq_iff_eq]

/-- The `UnwrapError` exception of `app/pipeline.py`, which wraps the `Err`
result whose `unwrap` raised it. -/
inductive UnwrapErr (ε : Type v) where
  | mk (error : ε)
deriving DecidableEq

/-- `AsyncPipeline.unwrap_as` (`app/pipeline.py`, lines 341-344) over a
materialised source: the list comprehension calls `Result.unwrap()` on each
element in order; the first `Err` raises `UnwrapError` (wrapping that
`Err`'s error), aborting the comprehension — nothing after it is pulled and
the partial list is discarded — and the surrounding
`as_async_result(UnwrapError)` turns the raise into a `Failure`. -/
def unwrap_as (xs : List (Res α ε)) : Res (List α) (UnwrapErr ε) :=
  match xs with
  | [] => .Ok []
  | .Ok v :: rest =>
      match unwrap_as rest with
      | .Ok vs => .Ok (v :: vs)
      | .Err e => .Err e
  | .Err e :: _ => .Err (.mk e)

/-- The error of the first `Failure` of the sequence, if any. -/
def firstErr : List (Res α ε) → Option ε
  | [] => none
  | .Ok _ :: rest => firstErr rest
  | .Err e :: _ => some e

/-- The values of the `Success` elements of the sequence, in order. -/
def okValues : List (Res α ε) → List α
  | [] => []
  | .Ok v :: rest => v :: okValues rest
  | .Err _ :: rest => okValues rest

/-- C7: `unwrap_as` succeeds with all unwrapped values when every element is
a success, and otherwise fails with the first failure in input order; the
second conjunct shows the whole result is fixed by the prefix up to that
first failure — whatever follows it (`ys`) is never pulled. -/
theorem unwrap_as_first_failure {α ε : Type} (xs : List (Res α ε))
    (vs : List α) (e : ε) (ys : List (Res α ε)) :
    (unwrap_as xs =
      match firstErr xs with
      | none => .Ok (okValues xs)
      | some e0 => .Err (.mk e0)) ∧
    unwrap_as (vs.map Res.Ok ++ .Err e :: ys) = .Err (.mk e) := by
  constructor
  · induction xs with
    | nil => rfl
    | cons hd tl ih =>
        cases hd with
        | Ok v =>
            simp only [unwrap_as, firstErr, okValues, ih]
            cases firstErr tl <;> simp
        | Err e0 => rfl
  · induction vs with
    | nil => rfl
    | cons v rest ih => simp [unwrap_as, ih]

/-- The Python values that flow through the pipelines: the primitives the
repo feeds them plus the effect-algebra wrappers of `app/pipeline.py`. -/
inductive PyVal where
  | noneV
  | boolV (b : Bool)
  | intV (n : Int)
  | strV (s : String)
  | listV (l : List PyVal)
  | SomethingV (v : PyVal)
  | NothingV
  | OkV (v : PyVal)
  | ErrV (v : PyVal)

/-- Python truthiness, as `filter(bool, ...)` and `if new := func(item):`
evaluate it.  `None`, `False`, `0`, `""` and empty collections are falsy;
instances of `Something`, `Nothing`, `Ok` and `Err` define neither
`__bool__` nor `__len__`, so they are all truthy. -/
def pyTruthy : PyVal → Bool
  | .noneV => false
  | .boolV b => b
  | .intV n => n != 0
  | .strV s => s != ""
  | .listV l => !l.isEmpty
  | .SomethingV _ => true
  | .NothingV => true
  | .OkV _ => true
  | .ErrV _ => true

/-- The claim's drop condition, read off the spec's words: the transformer
result is `Absent` or a `Failure`. -/
def isAbsentOrFailure : PyVal → Bool
  | .NothingV => true
  | .ErrV _ => true
  | _ => false

/-- One combinator of `Pipeline` (`app/pipeline.py`, lines 267-280):
`map(func, it)`, `filter(func, it)` and
`filter_map = filter(bool, map(func, it))`. -/
inductive PipeOp where
  | mapOp (f : PyVal → PyVal)
  | filterOp (f : PyVal → PyVal)
  | filterMapOp (f : PyVal → PyVal)

/-- The elements a combinator lets through, given the elements its upstream
iterator yields. -/
def applyOp : PipeOp → List PyVal → List PyVal
  | .mapOp f, xs => xs.map f
  | .filterOp f, xs => xs.filter (fun x => pyTruthy (f x))
  | .filterMapOp f, xs => (xs.map f).filter pyTruthy

/-- A derived pipeline is its stack of combinators, outermost last; all
pipelines derived from one source share that source's single iterator. -/
structure Pipeline where
  ops : List PipeOp

/-- The shared underlying iterator: the elements it has not yet yielded. -/
structure IterState where
  elems : List PyVal

/-- What a chain of combinators yields from the remaining source elements. -/
def runOps : List PipeOp → List PyVal → List PyVal
  | [], xs => xs
  | op :: rest, xs => runOps rest (applyOp op xs)

/-- `Pipeline.collect_as` (`app/pipeline.py`, lines 282-287):
`class_(self._iterator)` drains the shared iterator completely; the result
is `Nothing` when the materialised collection is empty and `Something`
otherwise. -/
def Pipeline.collect_as (p : Pipeline) (st : IterState) :
    Opt (List PyVal) × IterState :=
  let out := runOps p.ops st.elems
  ((if out.isEmpty then .Nothing else .Something out), ⟨[]⟩)

/-- Iterating a pipeline (`__iter__` hands out the shared iterator): the
yielded elements, and the iterator left drained. -/
def Pipeline.iterate (p : Pipeline) (st : IterState) : List PyVal × IterState :=
  (runOps p.ops st.elems, ⟨[]⟩)

/-- `AsyncPipeline.filter_map` (`app/pipeline.py`, lines 322-332) over a
materialised source: the generator yields `new := func(item)` only when
`new` is truthy, one item at a time in input order. -/
def asyncFilterMap (f : PyVal → PyVal) : List PyVal → List PyVal
  | [] => []
  | x :: rest =>
      let new := f x
      if pyTruthy new then new :: asyncFilterMap f rest else asyncFilterMap f rest

theorem runOps_nil_source (ops : List PipeOp) : runOps ops [] = [] := by
  induction ops with
  | nil => rfl
  | cons op rest ih => cases op <;> simpa [runOps, applyOp]

/-- C8 counterexample: a transformer that yields `Nothing()` for the single
input element.  `Nothing` defines no `__bool__`, so `filter(bool, ...)`
keeps it: the output is `[Nothing()]`, yet the result is `Absent` by the
claim's own drop condition, so it should have been dropped. -/
theorem filter_map_absent_not_dropped :
    applyOp (.filterMapOp (fun _ => PyVal.NothingV)) [PyVal.intV 1] =
      [PyVal.NothingV] ∧
    isAbsentOrFailure PyVal.NothingV = true ∧
    asyncFilterMap (fun _ => PyVal.NothingV) [PyVal.intV 1] = [PyVal.NothingV] :=
  ⟨rfl, rfl, rfl⟩

/-- C8 (amended): `Pipeline.filter_map(f)` and `AsyncPipeline.filter_map(f)`
produce exactly the values `f(x)` that are truthy under Python truthiness,
in input order — an element is dropped if and only if `f(x)` is falsy
(`None`, `False`, `0`, `""`, an empty collection).  `Nothing()` and `Err`
objects are truthy and are kept; the idiomatic transformers of this repo
return `.ok()`-style value-or-`None`, whose `None` is dropped. -/
theorem filter_map_drops_falsy (f : PyVal → PyVal) (xs : List PyVal) :
    applyOp (.filterMapOp f) xs =
      xs.foldr (fun x acc => if pyTruthy (f x) then f x :: acc else acc) [] ∧
    asyncFilterMap f xs = applyOp (.filterMapOp f) xs ∧
    pyTruthy PyVal.NothingV = true ∧
    pyTruthy (PyVal.ErrV (PyVal.strV "boom")) = true ∧
    pyTruthy PyVal.noneV = false := by
  refine ⟨?_, ?_, rfl, rfl, rfl⟩
  · induction xs with
    | nil => rfl
    | cons x rest ih =>
        by_cases hx : pyTruthy (f x) <;> simp [applyOp, List.filter, hx] at ih ⊢ <;>
          simpa [applyOp] using ih
  · induction xs with
    | nil => rfl
    | cons x rest ih =>
        by_cases hx : pyTruthy (f x) <;>
          simp [asyncFilterMap, applyOp, List.filter, hx] at ih ⊢ <;>
          simpa [applyOp] using ih

/-- C10: once `collect_as` has drained the shared iterator of a pipeline,
`collect_as` on any pipeline over that same iterator — itself, or any
pipeline derived by `map`/`filter`/`filter_map` — returns `Absent`, and
iterating it yields no elements. -/
theorem pipeline_exhausted_after_collect (p q : Pipeline) (st : IterState) :
    (q.collect_as (p.collect_as st).2).1 = .Nothing ∧
    (q.iterate (p.collect_as st).2).1 = [] := by
  have hq : runOps q.ops ([] : List PyVal) = [] := runOps_nil_source q.ops
  constructor
  · simp [Pipeline.collect_as, hq]
  · simp [Pipeline.iterate, Pipeline.collect_as, hq]

/-- Microseconds in one day of naive UTC time. -/
def dayUs : Nat := 86400000000

/-- `datetime.combine(datetime.utcnow(), time.max)`
(`app/calendar_events.py`, line 105): the current date at
23:59:59.999999 — the last microsecond of the current day, not the current
moment. -/
def endOfDayUtc (now : Nat) : Nat := now / dayUs * dayUs + (dayUs - 1)

/-- The `find(start={"$lte": hi, "$gte": lo}, tracked=tr)` query of
`EventStorage.find` evaluated over the collection: Mongo keeps the
documents whose `start` lies in the inclusive range and whose `tracked`
equals the requested flag, in collection order.  The
`filter_map(CalendarEvent.from_(doc).ok())` that follows is the identity on
documents this tracker wrote. -/
def findScheduled (db : List CalendarEvent) (lo hi : Nat) (tr : Bool) :
    List CalendarEvent :=
  db.filter (fun e => decide (lo ≤ e.start) && decide (e.start ≤ hi) && (e.tracked == tr))

/-- `CalendarTracker.list_events_scheduled_in` (`app/calendar_events.py`,
lines 103-117): `today` is the end of the current UTC day, and the window is
`[today, today + relativedelta(days=days)]`, both bounds inclusive. -/
def list_events_scheduled_in (now days : Nat) (tr : Bool)
    (db : List CalendarEvent) : Res (List CalendarEvent) PyExc :=
  let today := endOfDayUtc now
  .Ok (findScheduled db today (today + days * dayUs) tr)

/-- The claim's window: start within `[now, now + days]`, the lower bound
inclusive at the current moment. -/
def specScheduledWindow (now days s : Nat) : Prop :=
  now ≤ s ∧ s ≤ now + days * dayUs

/-- The event list a query result carries (queries in this model succeed). -/
def resultList (r : Res (List α) ε) : List α :=
  match r with
  | .Ok l => l
  | .Err _ => []

/-- An untracked event starting one microsecond after midnight, used to
refute the claimed lower bound. -/
def evC9 : CalendarEvent :=
  { id := "s1", summary := "soon", location := "Kyiv",
    coordinates := (0, 0), creator := "owner@example.com",
    start := 1, «end» := 2, link := "https://cal/s1" }

/-- C9 counterexample: at `now` = midnight (0) with `days = 1`, an event
starting 1 microsecond later lies inside the claimed window
`[now, now + 1 day]`, yet the query returns it in no result: the code's
lower bound is the end of the current day (23:59:59.999999), so everything
later today is excluded. -/
theorem scheduled_window_lower_bound_counterexample :
    specScheduledWindow 0 1 evC9.start ∧
    list_events_scheduled_in 0 1 false [evC9] = .Ok [] := by
  refine ⟨⟨Nat.zero_le _, by decide⟩, ?_⟩
  rfl

/-- C9 (amended): `list_events_scheduled_in(days)` queries exactly the
events with the requested `tracked` flag whose start lies within
`[endOfDay(now), endOfDay(now) + days]` — both bounds inclusive, with the
lower bound at the last microsecond of the current UTC day rather than the
current moment. -/
theorem list_events_scheduled_in_window (now days : Nat) (tr : Bool)
    (db : List CalendarEvent) (e : CalendarEvent) :
    e ∈ resultList (list_events_scheduled_in now days tr db) ↔
      e ∈ db ∧ endOfDayUtc now ≤ e.start ∧
        e.start ≤ endOfDayUtc now + days * dayUs ∧ e.tracked = tr := by
  simp [list_events_scheduled_in, resultList, findScheduled, List.mem_filter,
    and_assoc]

noncomputable section

/-- `app/utils.py`: `R = EARTH_RADIUS_KM = 6371`. -/
def EARTH_RADIUS_KM : ℝ := 6371

/-- `math.radians`. -/
def radians (x : ℝ) : ℝ := x * Real.pi / 180

/-- `math.degrees`. -/
def degrees (x : ℝ) : ℝ := x * 180 / Real.pi

/-- Python's float `%`: `x - y * floor(x / y)` (the result carries the sign
of `y`; here it is only used with `y = 360`). -/
def pyMod (x y : ℝ) : ℝ := x - y * (⌊x / y⌋ : ℤ)

/-- `math.atan2`, by quadrant, as the C library defines it on finite
inputs. -/
def atan2 (y x : ℝ) : ℝ :=
  if 0 < x then Real.arctan (y / x)
  else if x < 0 ∧ 0 ≤ y then Real.arctan (y / x) + Real.pi
  else if x < 0 ∧ y < 0 then Real.arctan (y / x) - Real.pi
  else if x = 0 ∧ 0 < y then Real.pi / 2
  else if x = 0 ∧ y < 0 then -(Real.pi / 2)
  else 0

/-- `utils.calc_destination_point_by` (`app/utils.py`, lines 32-52): the
spherical destination point at distance `d` and the given bearing from
`point1`, longitude renormalised by `(lon + 540) % 360 - 180`.  Real
arithmetic stands in for IEEE floats. -/
def calc_destination_point_by (point1 : ℝ × ℝ) (d bearing : ℝ) : ℝ × ℝ :=
  let lat1 := radians point1.1
  let lon1 := radians point1.2
  let theta := radians bearing
  let lat2 := Real.arcsin (Real.sin lat1 * Real.cos (d / EARTH_RADIUS_KM) +
    Real.cos lat1 * Real.sin (d / EARTH_RADIUS_KM) * Real.cos theta)
  let lon2 := lon1 + atan2
    (Real.sin theta * Real.sin (d / EARTH_RADIUS_KM) * Real.cos lat1)
    (Real.cos (d / EARTH_RADIUS_KM) - Real.sin lat1 * Real.sin lat2)
  (degrees lat2, pyMod (degrees lon2 + 540) 360 - 180)

end

/-- Model of `app/disaster_events.py:DisasterCategory`. -/
structure DisasterCategory where
  id : String
  title : String
  description : String

/-- Model of `app/disaster_events.py:DisasterEvent`. -/
structure DisasterEvent where
  id : String
  name : String
  description : String := ""
  link : String
  categories : List DisasterCategory
  active : Bool
  lat : ℝ
  lon : ℝ
  most_recent_date : Nat
  magnitude : String

/-- Model of `app/disaster_events.py:DisasterAlert`; `dangerous` defaults
to `true` and `check_calendar_event` never sets it. -/
structure DisasterAlert where
  recipient : String
  event : CalendarEvent
  disasters : List DisasterEvent
  dangerous : Bool := true

/-- `DisasterTracker._DISASTER_DISTANCE_THRESHOLD_KM`. -/
noncomputable def DISASTER_DISTANCE_THRESHOLD_KM : ℝ := 500

/-- The hazard documents the bounding-box query of
`DisasterTracker.scan_active_disasters` (`app/disaster_events.py`, lines
163-174) returns: `find(lat={"$gte": min_lat, "$lte": max_lat},
lon={"$gte": min_lon, "$lte": max_lon}, active=True)` with the northeast
corner at bearing 45 and the southwest corner at bearing 225, bounds
inclusive, in collection order. -/
noncomputable def activeDisastersInBox (db : List DisasterEvent) (point : ℝ × ℝ) :
    List DisasterEvent :=
  let northeast := calc_destination_point_by point DISASTER_DISTANCE_THRESHOLD_KM 45
  let southwest := calc_destination_point_by point DISASTER_DISTANCE_THRESHOLD_KM 225
  db.filter (fun d =>
    decide (southwest.1 ≤ d.lat) && decide (d.lat ≤ northeast.1) &&
    decide (southwest.2 ≤ d.lon) && decide (d.lon ≤ northeast.2) && d.active)

/-- `DisasterTracker.scan_active_disasters`: the query results collected
with `collect_as(tuple)`, which is `Nothing` exactly on an empty
collection (the `filter_map` re-parse through `DisasterEvent.from_` is the
identity on documents this tracker wrote). -/
noncomputable def DisasterTracker.scan_active_disasters (db : List DisasterEvent)
    (point : ℝ × ℝ) : Opt (List DisasterEvent) :=
  let ds := activeDisastersInBox db point
  if ds.isEmpty then .Nothing else .Something ds

/-- `DisasterTracker.check_calendar_event` (`app/disaster_events.py`, lines
152-161): `Something(DisasterAlert(recipient=event.creator, event=event,
disasters=...))` when the scan found hazards, `Nothing` otherwise. -/
noncomputable def DisasterTracker.check_calendar_event (db : List DisasterEvent)
    (event : CalendarEvent) : Opt DisasterAlert :=
  match DisasterTracker.scan_active_disasters db event.coordinates with
  | .Something disasters =>
      .Something { recipient := event.creator, event := event, disasters := disasters }
  | .Nothing => .Nothing

/-- C4: `check_calendar_event` returns `Present` of an alert whose
recipient is the event's creator, whose event is the given event, whose
disasters are exactly the active hazards of the bounding-box query and
whose `dangerous` flag is `true`, exactly when that query is non-empty;
on an empty query it returns `Absent` — never `Present` of an empty
collection. -/
theorem check_calendar_event_correlation (db : List DisasterEvent)
    (event : CalendarEvent) :
    DisasterTracker.check_calendar_event db event =
      (if (activeDisastersInBox db event.coordinates).isEmpty then .Nothing
       else .Something { recipient := event.creator, event := event,
                         disasters := activeDisastersInBox db event.coordinates,
                         dangerous := true }) ∧
    (DisasterTracker.check_calendar_event db event = .Nothing ↔
      activeDisastersInBox db event.coordinates = []) := by
  constructor
  · by_cases h : (activeDisastersInBox db event.coordinates).isEmpty <;>
      simp [DisasterTracker.check_calendar_event,
        DisasterTracker.scan_active_disasters, h]
  · by_cases h : (activeDisastersInBox db event.coordinates).isEmpty
    · simp [DisasterTracker.check_calendar_event,
        DisasterTracker.scan_active_disasters, h, List.isEmpty_iff.mp h]
    · simp [DisasterTracker.check_calendar_event,
        DisasterTracker.scan_active_disasters, h]
      exact fun hc => absurd (List.isEmpty_iff.mpr hc) h

/-- A redis hash: field name to string value. -/
abbrev RHash : Type := List (String × String)

/-- The key-value store behind `QuickStorage`: full key to hash. -/
abbrev KVStore : Type := List (String × RHash)

/-- Redis `HGETALL`: the stored hash, or the empty hash for an absent key —
never a `None`-like answer. -/
def hgetall (db : KVStore) (k : String) : RHash :=
  (List.lookup k db).getD []

/-- Model of `app/watcher.py:ChannelInfo`: all three fields are required. -/
structure ChannelInfo where
  id : String
  user_email : String
  calendar_id : String
deriving DecidableEq

/-- `channel_info.to_(dict, exclude={"id"})` (`ResultModel.to_`,
`app/model.py`, lines 27-32): the dump omits the `id` field, and the
`as_result`-decorated method returns it wrapped — an `Ok(dict)` `Result`
object, not a raw dict. -/
def ChannelInfo.to_dict_no_id (c : ChannelInfo) : Res RHash PyExc :=
  .Ok [("user_email", c.user_email), ("calendar_id", c.calendar_id)]

/-- `QuickStorage.set_map` (`app/db.py`, lines 70-74) as `EventChannels.create`
invokes it: `watcher.py` passes the un-unwrapped `Result` from `to_` as the
`mapping` argument.  The `Ok`/`Err` objects are truthy (no `__bool__`) and
neither has an `items` method (`__slots__`), so aioredis `hset` raises
`AttributeError` at `mapping.items()` before any write, and
`as_async_result(RedisError)` does not catch `AttributeError`: the call
raises and the store is untouched. -/
def QuickStorage.set_map_result_mapping (db : KVStore) (_key : String)
    (_mapping : Res RHash PyExc) : PyComp (Res Nat PyExc) × KVStore :=
  (.raised ⟨ExcKind.attributeError, "object has no attribute items"⟩, db)

/-- The pydantic `ValidationError` raised when a required field is missing,
as `ResultModel.from_`'s `as_result(ValidationError, ...)` wraps it. -/
def validationFailure : PyExc := ⟨ExcKind.validationError, "validation error"⟩

/-- `ChannelInfo.from_` (`ResultModel.from_`, `app/model.py`, lines 17-25,
on a dict): `model_validate` succeeds only when every required field —
`id`, `user_email` and `calendar_id` — is present, and otherwise the
`ValidationError` becomes an `Err`. -/
def ChannelInfo.from_ (m : RHash) : Res ChannelInfo PyExc :=
  match List.lookup "id" m, List.lookup "user_email" m, List.lookup "calendar_id" m with
  | some i, some u, some c => .Ok ⟨i, u, c⟩
  | _, _, _ => .Err validationFailure

/-- `EventChannels.create` (`app/watcher.py`, lines 26-30): passes the
prefixed channel id and, as `mapping`, the un-unwrapped `Ok(dict)` that
`to_(dict, exclude={"id"})` returns — so the call raises `AttributeError`
before anything is stored. -/
def EventChannels.create (db : KVStore) (info : ChannelInfo) :
    PyComp (Res Nat PyExc) × KVStore :=
  QuickStorage.set_map_result_mapping db ("PREFERENCES:" ++ info.id)
    (ChannelInfo.to_dict_no_id info)

/-- `EventChannels.get` (`app/watcher.py`, lines 32-41): `HGETALL` never
answers `None`, so `get_map` always lands in the `Ok(Something(obj))` arm
(the `Ok(Nothing())` arm is dead) and the raw hash is handed to
`ChannelInfo.from_`; its `Ok` is wrapped as a present record (the Python
arm returns the bare record where the annotation promises
`Option[ChannelInfo]` — a branch that can never fire here, since `create`
never writes, and even the intended id-less hash would fail `from_`). -/
def EventChannels.get (db : KVStore) (channel_id : String) :
    Res (Opt ChannelInfo) PyExc :=
  let obj := hgetall db ("PREFERENCES:" ++ channel_id)
  match ChannelInfo.from_ obj with
  | .Ok info => .Ok (.Something info)
  | .Err e => .Err e

/-- The channel record of the C5 run. -/
def infoC5 : ChannelInfo :=
  { id := "ch-1", user_email := "user@example.com", calendar_id := "primary" }

/-- C5 at the failing input: `EventChannels.create` never succeeds — it
passes the un-unwrapped `Ok(dict)` as `hset`'s mapping, so `mapping.items()`
raises `AttributeError`, which `as_async_result(RedisError)` does not
catch, and nothing is stored; a `get` on the untouched store then finds an
empty hash, `ChannelInfo.from_` fails on the missing required fields, and
the claimed round trip (create, then get returns the present record) never
happens.  (Had the dump been unwrapped, the stored hash would still lack
`id` — excluded by `to_(dict, exclude={"id"})` — and `get` would still
return `Err(ValidationError)`.) -/
theorem channels_get_after_create_fails :
    (EventChannels.create [] infoC5).1 =
      .raised ⟨ExcKind.attributeError, "object has no attribute items"⟩ ∧
    (EventChannels.create [] infoC5).2 = ([] : KVStore) ∧
    EventChannels.get (EventChannels.create [] infoC5).2 infoC5.id =
      .Err validationFailure :=
  ⟨rfl, rfl, rfl⟩
